import Mathlib

/-!
Verification development for a Telegram group-moderation bot
(`group_bot`: `storage.py`, `config.py`, `bot.py`).

Python dictionaries are embedded as insertion-ordered association lists
with unique keys; Python string primitives (`int`, `str.strip`,
`str.lower`) are embedded as explicit Lean functions; each bot handler is
embedded as a pure function from its context and the incoming update to
an `Except` value carrying the new warning store and the ordered list of
side effects (replies and Telegram API calls) it performs.
-/

set_option autoImplicit false

/-! ## Python dict model: insertion-ordered association lists -/

/-- `d.get(k)`: first (unique) binding of `k`, if any. -/
def dictGet {κ α : Type} [DecidableEq κ] : List (κ × α) → κ → Option α
  | [], _ => none
  | (k2, v) :: rest, k => if k2 = k then some v else dictGet rest k

/-- `d[k] = v`: update the binding in place if present, else append. -/
def dictSet {κ α : Type} [DecidableEq κ] : List (κ × α) → κ → α → List (κ × α)
  | [], k, v => [(k, v)]
  | (k2, v2) :: rest, k, v =>
    if k2 = k then (k, v) :: rest else (k2, v2) :: dictSet rest k v

/-- `del d[k]`: remove the binding of `k` (keys are unique in a dict). -/
def dictDel {κ α : Type} [DecidableEq κ] : List (κ × α) → κ → List (κ × α)
  | [], _ => []
  | (k2, v2) :: rest, k =>
    if k2 = k then dictDel rest k else (k2, v2) :: dictDel rest k

/-- The keys of a dict, in insertion order. -/
def dictKeys {κ α : Type} (d : List (κ × α)) : List κ :=
  d.map Prod.fst

theorem dictGet_set_self {κ α : Type} [DecidableEq κ] (d : List (κ × α)) (k : κ) (v : α) :
    dictGet (dictSet d k v) k = some v := by
  induction d with
  | nil => simp [dictGet, dictSet]
  | cons kv rest ih =>
    obtain ⟨k2, v2⟩ := kv
    by_cases h : k2 = k
    · simp [dictSet, dictGet, h]
    · simp [dictSet, dictGet, h, ih]

theorem dictGet_set_ne {κ α : Type} [DecidableEq κ] (d : List (κ × α)) (k k' : κ) (v : α)
    (h : k' ≠ k) : dictGet (dictSet d k v) k' = dictGet d k' := by
  induction d with
  | nil => simp [dictGet, dictSet, Ne.symm h]
  | cons kv rest ih =>
    obtain ⟨k2, v2⟩ := kv
    by_cases h2 : k2 = k
    · subst h2
      simp [dictSet, dictGet, Ne.symm h]
    · simp [dictSet, dictGet, h2, ih]

theorem dictGet_del_self {κ α : Type} [DecidableEq κ] (d : List (κ × α)) (k : κ) :
    dictGet (dictDel d k) k = none := by
  induction d with
  | nil => simp [dictGet, dictDel]
  | cons kv rest ih =>
    obtain ⟨k2, v2⟩ := kv
    by_cases h : k2 = k
    · simpa [dictDel, dictGet, h] using ih
    · simpa [dictDel, dictGet, h] using ih

theorem dictGet_del_ne {κ α : Type} [DecidableEq κ] (d : List (κ × α)) (k k' : κ)
    (h : k' ≠ k) : dictGet (dictDel d k) k' = dictGet d k' := by
  induction d with
  | nil => simp [dictGet, dictDel]
  | cons kv rest ih =>
    obtain ⟨k2, v2⟩ := kv
    by_cases h2 : k2 = k
    · subst h2
      simp [dictDel, dictGet, Ne.symm h, ih]
    · simp [dictDel, dictGet, h2, ih]

theorem dictSet_set_self {κ α : Type} [DecidableEq κ] (d : List (κ × α)) (k : κ) (v w : α) :
    dictSet (dictSet d k v) k w = dictSet d k w := by
  induction d with
  | nil => simp [dictSet]
  | cons kv rest ih =>
    obtain ⟨k2, v2⟩ := kv
    by_cases h : k2 = k
    · simp [dictSet, h]
    · simp [dictSet, h, ih]

/-! ## Python string primitives -/

/-- The ASCII whitespace characters recognised by `str.strip()` / `int()`. -/
def isPySpace (c : Char) : Bool :=
  c = ' ' || c = '\t' || c = '\n' || c = '\r' || c = '\x0b' || c = '\x0c'

/-- `s.strip()`: drop whitespace from both ends. -/
def pyStrip (s : String) : String :=
  String.mk (((s.toList.dropWhile isPySpace).reverse.dropWhile isPySpace).reverse)

/-- Lower-case a single ASCII character, as `str.lower()` does. -/
def lowerChar (c : Char) : Char :=
  if 'A' ≤ c ∧ c ≤ 'Z' then Char.ofNat (c.toNat + 32) else c

/-- `s.lower()` (restricted to the ASCII range used by the program). -/
def pyLower (s : String) : String :=
  String.mk (s.toList.map lowerChar)

/-- Digit run after the first digit: digits with single underscores
allowed between digits, as accepted by Python's `int()`. -/
def pyDigitsAux (acc : Nat) : List Char → Option Nat
  | [] => some acc
  | c :: cs =>
    if c.isDigit then pyDigitsAux (10 * acc + (c.toNat - 48)) cs
    else if c = '_' then
      match cs with
      | [] => none
      | c2 :: cs2 =>
        if c2.isDigit then pyDigitsAux (10 * acc + (c2.toNat - 48)) cs2 else none
    else none

/-- A nonempty digit run (with legal underscores) and its value. -/
def pyDigits : List Char → Option Nat
  | [] => none
  | c :: cs => if c.isDigit then pyDigitsAux (c.toNat - 48) cs else none

/-- Python's `int(s)` on a string: strip whitespace, optional sign,
nonempty digit run; `none` models a raised `ValueError`. -/
def pyParseInt (s : String) : Option Int :=
  match (pyStrip s).toList with
  | '+' :: rest => (pyDigits rest).map (fun n => (n : Int))
  | '-' :: rest => (pyDigits rest).map (fun n => -(n : Int))
  | rest => (pyDigits rest).map (fun n => (n : Int))

example : pyParseInt "10" = some 10 := by decide
example : pyParseInt " -3 " = some (-3) := by decide
example : pyParseInt "abc" = none := by decide
example : pyParseInt "" = none := by decide
example : pyStrip "  x " = "x" := by decide
example : pyLower "TrUe" = "true" := by decide

/-! ## `config.py`: `Settings` and `Settings.from_env`

The process environment is embedded as an association list from variable
names to their string values; `os.environ.get` is `dictGet`. -/

/-- Runtime settings resolved from environment variables
(`config.py`, class `Settings`). -/
structure Settings where
  bot_token : String
  warnings_limit : Int
  storage_path : String
  admin_only_links : Bool
deriving DecidableEq

/-- `config.py`, `_env`: read a variable, treating an unset or
empty-after-strip value as the supplied default. -/
def pyEnv (env : List (String × String)) (key : String) (default : Option String) :
    Option String :=
  match dictGet env key with
  | none => default
  | some value => if pyStrip value = "" then default else some value

/-- `config.py`, `Settings.from_env`: resolve all settings, with a
`RuntimeError` (modelled as `.error`) for a missing token or a
non-integer `WARNINGS_LIMIT`. -/
def Settings.from_env (env : List (String × String)) : Except String Settings :=
  let token := pyEnv env "TELEGRAM_BOT_TOKEN" none
  match token with
  | none =>
    .error "Set TELEGRAM_BOT_TOKEN in your environment (use .env.example as a template)."
  | some tok =>
    if tok = "" then
      .error "Set TELEGRAM_BOT_TOKEN in your environment (use .env.example as a template)."
    else
      let limit_raw := (pyEnv env "WARNINGS_LIMIT" (some "3")).getD "3"
      match pyParseInt limit_raw with
      | none => .error "WARNINGS_LIMIT must be an integer"
      | some n =>
        let warnings_limit := max 1 n
        let storage_path := (pyEnv env "WARNINGS_STORAGE" (some "./warnings.json")).getD "./warnings.json"
        let admin_only_links :=
          pyLower ((pyEnv env "ADMIN_ONLY_LINKS" (some "true")).getD "true") ∈
            (["1", "true", "yes"] : List String)
        .ok ⟨tok, warnings_limit, storage_path, admin_only_links⟩

instance {ε α : Type} [DecidableEq ε] [DecidableEq α] : DecidableEq (Except ε α) :=
  fun x y =>
    match x, y with
    | .ok a, .ok b =>
      if h : a = b then isTrue (by rw [h]) else isFalse (by intro hh; cases hh; exact h rfl)
    | .error a, .error b =>
      if h : a = b then isTrue (by rw [h]) else isFalse (by intro hh; cases hh; exact h rfl)
    | .ok _, .error _ => isFalse (by intro hh; cases hh)
    | .error _, .ok _ => isFalse (by intro hh; cases hh)

example :
    Settings.from_env [("TELEGRAM_BOT_TOKEN", "t0k")] =
      .ok ⟨"t0k", 3, "./warnings.json", true⟩ := by decide
example :
    Settings.from_env [("TELEGRAM_BOT_TOKEN", "t"), ("WARNINGS_LIMIT", "x")] =
      .error "WARNINGS_LIMIT must be an integer" := by decide
example :
    Settings.from_env [("TELEGRAM_BOT_TOKEN", "t"), ("WARNINGS_LIMIT", "0"),
      ("ADMIN_ONLY_LINKS", "No")] = .ok ⟨"t", 1, "./warnings.json", false⟩ := by decide

/-! ## `storage.py`: `WarningStore`

The two-level `defaultdict` keyed by `str(chat_id)` / `str(user_id)` is
embedded as a two-level association list keyed by the underlying integers
(`str` is injective on integers, so the key translation is faithful). -/

/-- The in-memory warning map: chat id, then user id, then count. -/
structure WarningStore where
  data : List (Int × List (Int × Int))
deriving DecidableEq

/-- The shape of the JSON file written by `_save` and read by `_load`:
an object of chat-id keys, each holding an object of user-id counts. -/
abbrev SavedJson : Type := List (Int × List (Int × Int))

/-- The store a freshly constructed `WarningStore` starts from before
`_load` runs. -/
def WarningStore.empty : WarningStore := ⟨[]⟩

/-- `storage.py`, `WarningStore.get`:
`int(self._data.get(chat_key, {}).get(user_key, 0))`. -/
def WarningStore.get (s : WarningStore) (chat_id user_id : Int) : Int :=
  (dictGet ((dictGet s.data chat_id).getD []) user_id).getD 0

/-- `storage.py`, `WarningStore.get_all`:
`dict(self._data.get(chat_key, {}))` (a shallow copy of the chat map). -/
def WarningStore.get_all (s : WarningStore) (chat_id : Int) : List (Int × Int) :=
  (dictGet s.data chat_id).getD []

/-- `storage.py`, `WarningStore.increment`:
`self._data[chat_key][user_key] += 1` through the two `defaultdict`
levels (absent entries default to `{}` / `0`), returning the new count. -/
def WarningStore.increment (s : WarningStore) (chat_id user_id : Int) :
    Int × WarningStore :=
  let users := (dictGet s.data chat_id).getD []
  let newCount := (dictGet users user_id).getD 0 + 1
  (newCount, ⟨dictSet s.data chat_id (dictSet users user_id newCount)⟩)

/-- `storage.py`, `WarningStore.reset`: delete the per-user entry if it
is present (`if user_key in self._data.get(chat_key, {})`). -/
def WarningStore.reset (s : WarningStore) (chat_id user_id : Int) : WarningStore :=
  match dictGet s.data chat_id with
  | none => s
  | some users =>
    if (dictGet users user_id).isSome then
      ⟨dictSet s.data chat_id (dictDel users user_id)⟩
    else s

/-- `storage.py`, `WarningStore._save`: serialize
`{chat: dict(users) for chat, users in self._data.items()}`. -/
def WarningStore.save (s : WarningStore) : SavedJson :=
  s.data.map (fun cu => (cu.1, cu.2))

/-- The `_load` loop body:
`self._data[str(chat_id)][str(user_id)] = int(count)` through the
`defaultdict` levels. -/
def loadEntry (acc : List (Int × List (Int × Int))) (chat_id user_id count : Int) :
    List (Int × List (Int × Int)) :=
  dictSet acc chat_id (dictSet ((dictGet acc chat_id).getD []) user_id count)

/-- The nested `for` loops of `storage.py`, `WarningStore._load`. -/
def loadRaw (raw : SavedJson) : List (Int × List (Int × Int)) :=
  raw.foldl
    (fun acc cu => cu.2.foldl (fun acc2 un => loadEntry acc2 cu.1 un.1 un.2) acc) []

/-- Constructing `WarningStore(path)`: start empty, then `_load` the file
if it exists (`none` models a missing file). -/
def WarningStore.ofFile (file : Option SavedJson) : WarningStore :=
  match file with
  | none => WarningStore.empty
  | some raw => ⟨loadRaw raw⟩

/-- A disk access performed by a store method. -/
inductive DiskOp where
  | write (contents : SavedJson)
  | read
deriving DecidableEq

/-- `increment` together with its synchronous `_save` call. -/
def WarningStore.incrementEff (s : WarningStore) (chat_id user_id : Int) :
    Int × WarningStore × List DiskOp :=
  let r := s.increment chat_id user_id
  (r.1, r.2, [DiskOp.write r.2.save])

/-- `reset` together with its conditional `_save` call (the file is
rewritten only when an entry was actually deleted). -/
def WarningStore.resetEff (s : WarningStore) (chat_id user_id : Int) :
    WarningStore × List DiskOp :=
  match dictGet s.data chat_id with
  | none => (s, [])
  | some users =>
    if (dictGet users user_id).isSome then
      let s2 : WarningStore := ⟨dictSet s.data chat_id (dictDel users user_id)⟩
      (s2, [DiskOp.write s2.save])
    else (s, [])

/-- `get` as a state transformer: its body is a chain of non-mutating
`.get` reads on the in-memory mirror and touches no file. -/
def WarningStore.getEff (s : WarningStore) (chat_id user_id : Int) :
    Int × WarningStore × List DiskOp :=
  ((dictGet ((dictGet s.data chat_id).getD []) user_id).getD 0, s, [])

/-- `get_all` as a state transformer: a single non-mutating `.get` read
plus a `dict(...)` copy, touching no file. -/
def WarningStore.get_allEff (s : WarningStore) (chat_id : Int) :
    List (Int × Int) × WarningStore × List DiskOp :=
  ((dictGet s.data chat_id).getD [], s, [])

/-! ### Operation sequences on a store (for the counting property) -/

/-- A mutating store operation. -/
inductive StoreOp where
  | incr (chat_id user_id : Int)
  | reset (chat_id user_id : Int)
deriving DecidableEq

/-- Apply one operation. -/
def applyOp (s : WarningStore) : StoreOp → WarningStore
  | .incr c u => (s.increment c u).2
  | .reset c u => s.reset c u

/-- Apply a sequence of operations in order. -/
def applyOps : List StoreOp → WarningStore → WarningStore
  | [], s => s
  | op :: rest, s => applyOps rest (applyOp s op)

/-- Run a sequence of operations from a freshly constructed empty store. -/
def runOps (ops : List StoreOp) : WarningStore :=
  applyOps ops WarningStore.empty

/-- Fold the running count for the pair `(c, u)`: an `incr` on the pair
adds one, a `reset` on the pair restarts the count at zero. -/
def countAfter : List StoreOp → Int → Int → Int → Int
  | [], _, _, acc => acc
  | op :: rest, c, u, acc =>
    match op with
    | .incr c2 u2 =>
      if c2 = c ∧ u2 = u then countAfter rest c u (acc + 1) else countAfter rest c u acc
    | .reset c2 u2 =>
      if c2 = c ∧ u2 = u then countAfter rest c u 0 else countAfter rest c u acc

/-- The number of `increment (c, u)` calls since the most recent
`reset (c, u)` (or since the start, if none). -/
def countSinceReset (ops : List StoreOp) (c u : Int) : Int :=
  countAfter ops c u 0

example :
    (runOps [.incr 1 2, .incr 1 2, .incr 1 3, .reset 1 2, .incr 1 2]).get 1 2 = 1 := by
  decide
example :
    countSinceReset [.incr 1 2, .incr 1 2, .incr 1 3, .reset 1 2, .incr 1 2] 1 2 = 1 := by
  decide

/-! ## `bot.py`: Telegram objects, effects, and handlers

Each handler is a pure function from the bot context (settings, warning
store, opportunistic admin-id cache, the platform's
`get_chat_administrators` response, command arguments) and the incoming
update to `Except`: `.error` models an uncaught Python exception,
`.ok (store, effects)` the resulting store plus the ordered replies and
API calls the handler performs. -/

/-- A Telegram user, as far as the handlers inspect one. -/
structure PyUser where
  id : Int
  firstName : String
deriving DecidableEq

/-- The message a command replies to (`reply_to_message`). -/
structure RMessage where
  fromUser : Option PyUser
  messageId : Int
deriving DecidableEq

/-- The triggering message. `date` is in seconds. -/
structure Message where
  date : Int
  fromUser : Option PyUser
  replyToMessage : Option RMessage
  newChatMembers : List PyUser
deriving DecidableEq

/-- An incoming update: `effective_chat` is present for every update the
registered handlers receive, `message` and `effective_user` may not be. -/
structure TgUpdate where
  message : Option Message
  effectiveChat : Int
  effectiveUser : Option PyUser
deriving DecidableEq

/-- The `telegram.ChatPermissions` fields the bot constructs
(unset fields are `none`, Python `None`). -/
structure ChatPermissions where
  can_send_messages : Option Bool
  can_send_media_messages : Option Bool
  can_send_other_messages : Option Bool
  can_add_web_page_previews : Option Bool
  can_send_audios : Option Bool
  can_send_documents : Option Bool
  can_send_photos : Option Bool
  can_send_videos : Option Bool
  can_send_video_notes : Option Bool
  can_send_voice_notes : Option Bool
deriving DecidableEq

/-- `ChatPermissions(can_send_messages=False)`: used by mute and lock. -/
def permsMuted : ChatPermissions :=
  ⟨some false, none, none, none, none, none, none, none, none, none⟩

/-- The all-true permission object built by unmute and unlock. -/
def permsOpen : ChatPermissions :=
  ⟨some true, some true, some true, some true, some true,
   some true, some true, some true, some true, some true⟩

/-- An observable side effect of a handler, in execution order. -/
inductive Effect where
  | getChatAdministrators (chat_id : Int)
  | replyText (text : String)
  | replyHtml (text : String)
  | restrictChatMember (chat_id user_id : Int) (permissions : ChatPermissions)
      (until_date : Option Int)
  | setChatPermissions (chat_id : Int) (permissions : ChatPermissions)
  | banChatMember (chat_id user_id : Int)
  | pinMessage (message_id : Int)
  | deleteMessage
  | sendMessage (chat_id : Int) (text : String)
deriving DecidableEq

/-- Whether an effect is a moderation API call (as opposed to a chat
message or the read-only administrator-list fetch). -/
def Effect.isModerationCall : Effect → Bool
  | .restrictChatMember _ _ _ _ => true
  | .setChatPermissions _ _ => true
  | .banChatMember _ _ => true
  | .pinMessage _ => true
  | .deleteMessage => true
  | _ => false

/-- The handler context: `application.bot_data` (settings, warning store,
the `admin_ids` cache written by `track_admin`), the platform's response
to `get_chat_administrators`, and `context.args`. -/
structure Ctx where
  settings : Settings
  store : WarningStore
  adminCache : List (Int × List Int)
  fetchAdmins : Int → List Int
  args : List String

/-- The `AttributeError` raised when `None` is dereferenced. -/
def pyAttributeError : String := "AttributeError"

/-- The result type of a handler invocation. -/
abbrev HandlerResult := Except String (WarningStore × List Effect)

/-- `bot.py`, `_is_admin`. -/
def tg_is_admin (user : Option PyUser) (admin_ids : List Int) : Bool :=
  match user with
  | none => false
  | some u => decide (u.id ∈ admin_ids)

/-- `telegram.User.mention_html()`. -/
def mentionHtml (u : PyUser) : String :=
  "<a href=\"tg://user?id=" ++ toString u.id ++ "\">" ++ u.firstName ++ "</a>"

/-- A single-quote character (used in the `stats` HTML). -/
def singleQuote : String := String.singleton (Char.ofNat 39)

/-- `bot.py`, the minutes computation inside `mute_user`: explicit
duration wins; else the first argument is parsed with `int`, clamped with
`max(1, ...)`, and a `ValueError` falls back to 10; a still-falsy value
becomes 10 (`minutes = minutes or 10`). -/
def resolveMinutes (duration_minutes : Option Int) (args : List String) : Int :=
  let minutes : Option Int :=
    match duration_minutes, args with
    | none, a :: _ =>
      match pyParseInt a with
      | some n => some (max 1 n)
      | none => some 10
    | m, _ => m
  match minutes with
  | none => 10
  | some m => if m = 0 then 10 else m

/-- `bot.py`, `mute_user`: reply/target/admin gates, then restrict the
target until `message.date + timedelta(minutes=minutes)`. It never
touches the warning store, so it yields only effects. -/
def mute_user (ctx : Ctx) (u : TgUpdate) (duration_minutes : Option Int) :
    Except String (List Effect) :=
  match u.message with
  | none => .error pyAttributeError
  | some msg =>
    match msg.replyToMessage with
    | none => .ok [Effect.replyText "برای سکوت، پیام کاربر را ریپلای کنید."]
    | some rm =>
      match rm.fromUser with
      | none => .ok []
      | some target =>
        let chat_id := u.effectiveChat
        let admin_ids := ctx.fetchAdmins chat_id
        if ! tg_is_admin u.effectiveUser admin_ids then
          .ok [Effect.getChatAdministrators chat_id,
               Effect.replyText "فقط ادمین‌ها می‌توانند سکوت کنند."]
        else
          let minutes := resolveMinutes duration_minutes ctx.args
          let until_date := msg.date + minutes * 60
          .ok [Effect.getChatAdministrators chat_id,
               Effect.restrictChatMember chat_id target.id permsMuted (some until_date),
               Effect.replyHtml (mentionHtml target ++ " برای " ++ toString minutes ++
                 " دقیقه به سکوت رفت.")]

/-- `bot.py`, `warn`: reply/target/admin gates, increment, report the
count, and on reaching the limit call `mute_user` for 60 minutes and
reset the counter. -/
def warn (ctx : Ctx) (u : TgUpdate) : HandlerResult :=
  match u.message with
  | none => .error pyAttributeError
  | some msg =>
    match msg.replyToMessage with
    | none => .ok (ctx.store, [Effect.replyText "برای هشدار، پیام کاربر را ریپلای کنید."])
    | some rm =>
      match rm.fromUser with
      | none => .ok (ctx.store, [])
      | some target =>
        let chat_id := u.effectiveChat
        let admin_ids := ctx.fetchAdmins chat_id
        if ! tg_is_admin u.effectiveUser admin_ids then
          .ok (ctx.store, [Effect.getChatAdministrators chat_id,
                           Effect.replyText "فقط ادمین‌ها می‌توانند هشدار دهند."])
        else
          let r := ctx.store.increment chat_id target.id
          let new_count := r.1
          let store1 := r.2
          let limit := ctx.settings.warnings_limit
          let eff1 := [Effect.getChatAdministrators chat_id,
                       Effect.replyHtml ("هشدار #" ++ toString new_count ++ " برای " ++
                         mentionHtml target ++ " ثبت شد.")]
          if new_count ≥ limit then
            match mute_user ctx u (some 60) with
            | .error e => .error e
            | .ok muteEffs =>
              let store2 := store1.reset chat_id target.id
              .ok (store2, eff1 ++ muteEffs ++
                [Effect.replyHtml (mentionHtml target ++
                  " به دلیل هشدارهای متوالی به مدت یک ساعت میوت شد.")])
          else
            .ok (store1, eff1)

/-- `bot.py`, `warn_info` (the `/warns` command): reply gate, then a
read-only report of the stored count. -/
def warn_info (ctx : Ctx) (u : TgUpdate) : HandlerResult :=
  match u.message with
  | none => .error pyAttributeError
  | some _msg =>
    match _msg.replyToMessage with
    | none =>
      .ok (ctx.store, [Effect.replyText "برای مشاهده تعداد هشدار، پیام کاربر را ریپلای کنید."])
    | some rm =>
      match rm.fromUser with
      | none => .ok (ctx.store, [])
      | some target =>
        let count := ctx.store.get u.effectiveChat target.id
        .ok (ctx.store, [Effect.replyHtml (mentionHtml target ++ " تا کنون " ++
          toString count ++ " هشدار دارد.")])

/-- `bot.py`, `mute` (the `/mute` command): delegates to `mute_user`
with no explicit duration. -/
def mute (ctx : Ctx) (u : TgUpdate) : HandlerResult :=
  (mute_user ctx u none).map (fun effs => (ctx.store, effs))

/-- `bot.py`, `unmute`: reply/target/admin gates, then restore the full
permission set with no expiry. -/
def unmute (ctx : Ctx) (u : TgUpdate) : HandlerResult :=
  match u.message with
  | none => .error pyAttributeError
  | some msg =>
    match msg.replyToMessage with
    | none =>
      .ok (ctx.store, [Effect.replyText "برای آزاد کردن کاربر، پیام او را ریپلای کنید."])
    | some rm =>
      match rm.fromUser with
      | none => .ok (ctx.store, [])
      | some target =>
        let chat_id := u.effectiveChat
        let admin_ids := ctx.fetchAdmins chat_id
        if ! tg_is_admin u.effectiveUser admin_ids then
          .ok (ctx.store, [Effect.getChatAdministrators chat_id,
                           Effect.replyText "فقط ادمین‌ها می‌توانند کاربر را آزاد کنند."])
        else
          .ok (ctx.store, [Effect.getChatAdministrators chat_id,
                           Effect.restrictChatMember chat_id target.id permsOpen none,
                           Effect.replyHtml ("ارسال پیام برای " ++ mentionHtml target ++
                             " مجاز شد.")])

/-- `bot.py`, `ban`: reply/target/admin gates, then ban the target. -/
def ban (ctx : Ctx) (u : TgUpdate) : HandlerResult :=
  match u.message with
  | none => .error pyAttributeError
  | some msg =>
    match msg.replyToMessage with
    | none => .ok (ctx.store, [Effect.replyText "برای بن کردن، پیام کاربر را ریپلای کنید."])
    | some rm =>
      match rm.fromUser with
      | none => .ok (ctx.store, [])
      | some target =>
        let chat_id := u.effectiveChat
        let admin_ids := ctx.fetchAdmins chat_id
        if ! tg_is_admin u.effectiveUser admin_ids then
          .ok (ctx.store, [Effect.getChatAdministrators chat_id,
                           Effect.replyText "فقط ادمین‌ها می‌توانند کاربر را بن کنند."])
        else
          .ok (ctx.store, [Effect.getChatAdministrators chat_id,
                           Effect.banChatMember chat_id target.id,
                           Effect.replyHtml (mentionHtml target ++
                             " از گروه حذف و مسدود شد.")])

/-- `bot.py`, `lock_chat`: admin gate, then restrict the whole chat. -/
def lock_chat (ctx : Ctx) (u : TgUpdate) : HandlerResult :=
  let chat_id := u.effectiveChat
  let admin_ids := ctx.fetchAdmins chat_id
  if ! tg_is_admin u.effectiveUser admin_ids then
    match u.message with
    | none => .error pyAttributeError
    | some _ =>
      .ok (ctx.store, [Effect.getChatAdministrators chat_id,
                       Effect.replyText "فقط ادمین‌ها می‌توانند گروه را قفل کنند."])
  else
    match u.message with
    | none => .error pyAttributeError
    | some _ =>
      .ok (ctx.store, [Effect.getChatAdministrators chat_id,
                       Effect.setChatPermissions chat_id permsMuted,
                       Effect.replyText "گروه قفل شد و ارسال پیام برای اعضا محدود شد."])

/-- `bot.py`, `unlock_chat`: admin gate, then restore the full
permission set chat-wide. -/
def unlock_chat (ctx : Ctx) (u : TgUpdate) : HandlerResult :=
  let chat_id := u.effectiveChat
  let admin_ids := ctx.fetchAdmins chat_id
  if ! tg_is_admin u.effectiveUser admin_ids then
    match u.message with
    | none => .error pyAttributeError
    | some _ =>
      .ok (ctx.store, [Effect.getChatAdministrators chat_id,
                       Effect.replyText "فقط ادمین‌ها می‌توانند گروه را آزاد کنند."])
  else
    match u.message with
    | none => .error pyAttributeError
    | some _ =>
      .ok (ctx.store, [Effect.getChatAdministrators chat_id,
                       Effect.setChatPermissions chat_id permsOpen,
                       Effect.replyText "گروه آزاد شد و اعضا می‌توانند پیام ارسال کنند."])

/-- One line of the `stats` report. -/
def statsLine (un : Int × Int) : String :=
  "• <a href=" ++ singleQuote ++ "tg://user?id=" ++ toString un.1 ++ singleQuote ++
    ">کاربر " ++ toString un.1 ++ "</a>: " ++ toString un.2 ++ " هشدار"

/-- `bot.py`, `stats`: report all counts of the chat, or a placeholder
when none are recorded. -/
def stats (ctx : Ctx) (u : TgUpdate) : HandlerResult :=
  let chat_id := u.effectiveChat
  let warnings := ctx.store.get_all chat_id
  match u.message with
  | none => .error pyAttributeError
  | some _ =>
    if warnings = [] then
      .ok (ctx.store, [Effect.replyText "فعلاً هشدار ثبت نشده است."])
    else
      .ok (ctx.store, [Effect.replyHtml
        (String.intercalate "\n" ("آمار هشدارها:" :: warnings.map statsLine))])

/-- `bot.py`, `reset_warns`: reply/target/admin gates, then clear the
target's counter. -/
def reset_warns (ctx : Ctx) (u : TgUpdate) : HandlerResult :=
  match u.message with
  | none => .error pyAttributeError
  | some msg =>
    match msg.replyToMessage with
    | none =>
      .ok (ctx.store, [Effect.replyText "برای پاک کردن هشدار، پیام کاربر را ریپلای کنید."])
    | some rm =>
      match rm.fromUser with
      | none => .ok (ctx.store, [])
      | some target =>
        let chat_id := u.effectiveChat
        let admin_ids := ctx.fetchAdmins chat_id
        if ! tg_is_admin u.effectiveUser admin_ids then
          .ok (ctx.store, [Effect.getChatAdministrators chat_id,
                           Effect.replyText "فقط ادمین‌ها می‌توانند هشدارها را پاک کنند."])
        else
          let store2 := ctx.store.reset chat_id target.id
          .ok (store2, [Effect.getChatAdministrators chat_id,
                        Effect.replyHtml ("تمام هشدارهای " ++ mentionHtml target ++
                          " پاک شد.")])

/-- `bot.py`, `pin`: reply/admin gates, then pin the replied message. -/
def pin (ctx : Ctx) (u : TgUpdate) : HandlerResult :=
  match u.message with
  | none => .error pyAttributeError
  | some msg =>
    match msg.replyToMessage with
    | none => .ok (ctx.store, [Effect.replyText "برای پین کردن، پیام مد نظر را ریپلای کنید."])
    | some rm =>
      let chat_id := u.effectiveChat
      let admin_ids := ctx.fetchAdmins chat_id
      if ! tg_is_admin u.effectiveUser admin_ids then
        .ok (ctx.store, [Effect.getChatAdministrators chat_id,
                         Effect.replyText "فقط ادمین‌ها می‌توانند پیام را پین کنند."])
      else
        .ok (ctx.store, [Effect.getChatAdministrators chat_id,
                         Effect.pinMessage rm.messageId,
                         Effect.replyText "پیام انتخاب‌شده پین شد."])

/-- `bot.py`, `block_links`: delete a URL-bearing message from a
non-admin sender when the policy flag is on. -/
def block_links (ctx : Ctx) (u : TgUpdate) : HandlerResult :=
  match u.message with
  | none => .ok (ctx.store, [])
  | some msg =>
    match msg.fromUser with
    | none => .ok (ctx.store, [])
    | some sender =>
      let chat_id := u.effectiveChat
      if ! ctx.settings.admin_only_links then .ok (ctx.store, [])
      else
        let admin_ids := ctx.fetchAdmins chat_id
        if tg_is_admin (some sender) admin_ids then
          .ok (ctx.store, [Effect.getChatAdministrators chat_id])
        else
          .ok (ctx.store, [Effect.getChatAdministrators chat_id,
                           Effect.deleteMessage,
                           Effect.sendMessage chat_id (mentionHtml sender ++
                             " ارسال لینک برای کاربران غیرادمین ممنوع است.")])

/-- `bot.py`, `start`: the static banner. -/
def start (ctx : Ctx) (u : TgUpdate) : HandlerResult :=
  match u.message with
  | none => .error pyAttributeError
  | some _ =>
    .ok (ctx.store, [Effect.replyText ("✨ ربات مدیریت گروه فعال است!\n\n/ کمک بگیر | /help یا /komak\n/ قوانین | /rules\n/ هشدار | /warn (ریپلای کنید)\n/ سکوت | /mute (ریپلای کنید)\n/ آزادسازی | /unmute (ریپلای کنید)\n/ قفل گروه | /lock\n/ آزاد کردن گروه | /unlock\n/ بن | /ban (ریپلای کنید)\n/ پاک هشدار | /resetwarns (ریپلای کنید)\n/ تعداد هشدار | /warns (ریپلای کنید)\n/ پین پیام | /pin (ریپلای کنید)\n/ آمار | /stats")])

/-- `bot.py`, `help_command`: the static help text. -/
def help_command (ctx : Ctx) (u : TgUpdate) : HandlerResult :=
  match u.message with
  | none => .error pyAttributeError
  | some _ =>
    .ok (ctx.store, [Effect.replyText ("دستورات اصلی:\n• /warn – اضافه کردن هشدار به کاربر (ریپلای)\n• /warns – مشاهده تعداد هشدار کاربر ریپلای‌شده\n• /mute <دقیقه> – سکوت موقت برای کاربر پاسخ داده شده\n• /unmute – آزاد کردن کاربر از سکوت (ریپلای)\n• /lock – قفل کردن گروه و محدود کردن چت اعضا\n• /unlock – آزاد کردن چت اعضا\n• /ban – حذف و مسدود کردن کاربر (ریپلای)\n• /resetwarns – پاک کردن هشدارهای کاربر (ریپلای)\n• /pin – پین کردن پیام ریپلای شده\n• /stats – مشاهده تعداد هشدارهای ثبت‌شده\n• /rules – نمایش قوانین گروه\n• /help یا /komak – نمایش همین راهنما\n• ارسال لینک برای کاربران غیرادمین در صورت فعال بودن محدود می‌شود.")])

/-- `bot.py`, `rules`: the static rules text. -/
def rules (ctx : Ctx) (u : TgUpdate) : HandlerResult :=
  match u.message with
  | none => .error pyAttributeError
  | some _ =>
    .ok (ctx.store, [Effect.replyText ("قوانین کلی:\n1. احترام به اعضا\n2. بدون اسپم و لینک‌های مشکوک\n3. از ریپلای برای درخواست کمک استفاده کنید")])

/-- `bot.py`, `welcome`: greet every new member. -/
def welcome (ctx : Ctx) (u : TgUpdate) : HandlerResult :=
  match u.message with
  | none => .ok (ctx.store, [])
  | some msg =>
    .ok (ctx.store, msg.newChatMembers.map (fun m =>
      Effect.replyHtml ("خوش آمدی " ++ mentionHtml m ++ "! قوانین را با /rules بخوان.")))

/-- A `my_chat_member` status-change update, as far as `track_admin`
inspects it. -/
structure ChatMemberUpd where
  chatId : Int
  newStatus : String
  newUserId : Int
deriving DecidableEq

/-- `bot.py`, `track_admin`: opportunistically record a newly promoted
administrator in `bot_data["admin_ids"]`. It emits no effect and only
rewrites the cache. -/
def track_admin (ctx : Ctx) (chat_member : Option ChatMemberUpd) : List (Int × List Int) :=
  match chat_member with
  | none => ctx.adminCache
  | some cm =>
    if cm.newStatus = "administrator" then
      let cur := (dictGet ctx.adminCache cm.chatId).getD []
      dictSet ctx.adminCache cm.chatId
        (if cm.newUserId ∈ cur then cur else cur ++ [cm.newUserId])
    else ctx.adminCache

/-! ## Store lemmas -/

theorem dictGet_eq_none_of_not_mem {κ α : Type} [DecidableEq κ] (d : List (κ × α)) (k : κ)
    (h : k ∉ d.map Prod.fst) : dictGet d k = none := by
  induction d with
  | nil => rfl
  | cons kv rest ih =>
    obtain ⟨k2, v2⟩ := kv
    simp only [List.map_cons, List.mem_cons] at h
    push_neg at h
    simp [dictGet, Ne.symm h.1, ih h.2]

theorem WarningStore.increment_fst (s : WarningStore) (c u : Int) :
    (s.increment c u).1 = s.get c u + 1 := rfl

theorem get_increment_self (s : WarningStore) (c u : Int) :
    ((s.increment c u).2).get c u = s.get c u + 1 := by
  simp [WarningStore.increment, WarningStore.get, dictGet_set_self]

theorem get_increment_other (s : WarningStore) (c u c2 u2 : Int)
    (h : ¬(c2 = c ∧ u2 = u)) : ((s.increment c2 u2).2).get c u = s.get c u := by
  by_cases hc : c2 = c
  · subst hc
    have hu : u2 ≠ u := by
      intro hu
      exact h ⟨rfl, hu⟩
    simp [WarningStore.increment, WarningStore.get, dictGet_set_self,
      dictGet_set_ne _ _ _ _ (Ne.symm hu)]
  · simp [WarningStore.increment, WarningStore.get, dictGet_set_ne _ _ _ _ (Ne.symm hc)]

theorem get_reset_self (s : WarningStore) (c u : Int) : (s.reset c u).get c u = 0 := by
  unfold WarningStore.reset
  cases hd : dictGet s.data c with
  | none => simp [WarningStore.get, hd, dictGet]
  | some users =>
    by_cases hu : (dictGet users u).isSome
    · simp [hu, WarningStore.get, dictGet_set_self, dictGet_del_self]
    · have hnone : dictGet users u = none := by
        cases h2 : dictGet users u with
        | none => rfl
        | some v => rw [h2] at hu; simp at hu
      simp [hu, WarningStore.get, hd, hnone]

theorem get_reset_other (s : WarningStore) (c u c2 u2 : Int)
    (h : ¬(c2 = c ∧ u2 = u)) : (s.reset c2 u2).get c u = s.get c u := by
  unfold WarningStore.reset
  cases hd : dictGet s.data c2 with
  | none => rfl
  | some users =>
    by_cases hiss : (dictGet users u2).isSome
    · by_cases hc : c2 = c
      · subst hc
        have hu : u2 ≠ u := by
          intro hu
          exact h ⟨rfl, hu⟩
        simp [hiss, WarningStore.get, dictGet_set_self, hd,
          dictGet_del_ne _ _ _ (Ne.symm hu)]
      · simp [hiss, WarningStore.get, dictGet_set_ne _ _ _ _ (Ne.symm hc)]
    · simp [hiss]

theorem applyOps_get (ops : List StoreOp) (c u : Int) :
    ∀ s : WarningStore, (applyOps ops s).get c u = countAfter ops c u (s.get c u) := by
  induction ops with
  | nil =>
    intro s
    rfl
  | cons op rest ih =>
    intro s
    cases op with
    | incr c2 u2 =>
      by_cases h : c2 = c ∧ u2 = u
      · obtain ⟨hc, hu⟩ := h
        subst hc
        subst hu
        simp [applyOps, applyOp, countAfter, ih, get_increment_self]
      · simp [applyOps, applyOp, countAfter, ih, get_increment_other _ _ _ _ _ h, h]
    | reset c2 u2 =>
      by_cases h : c2 = c ∧ u2 = u
      · obtain ⟨hc, hu⟩ := h
        subst hc
        subst hu
        simp [applyOps, applyOp, countAfter, ih, get_reset_self]
      · simp [applyOps, applyOp, countAfter, ih, get_reset_other _ _ _ _ _ h, h]

/-- Claim C1: over any operation sequence from a fresh empty store,
`get (chat, user)` equals the number of `increment (chat, user)` calls
since the most recent `reset (chat, user)` (or since the start);
`increment` adds 1 to the stored count (defaulting from 0) and returns
the new count; a `reset` followed immediately by a `get` returns 0. -/
theorem warningStore_get_counts_increments :
    (∀ (ops : List StoreOp) (c u : Int), (runOps ops).get c u = countSinceReset ops c u) ∧
    (∀ (s : WarningStore) (c u : Int),
      (s.increment c u).1 = s.get c u + 1 ∧
      ((s.increment c u).2).get c u = s.get c u + 1) ∧
    (∀ (s : WarningStore) (c u : Int), (s.reset c u).get c u = 0) := by
  refine ⟨?_, ?_, ?_⟩
  · intro ops c u
    have h := applyOps_get ops c u WarningStore.empty
    simpa [runOps, countSinceReset, WarningStore.empty, WarningStore.get, dictGet] using h
  · intro s c u
    exact ⟨rfl, get_increment_self s c u⟩
  · intro s c u
    exact get_reset_self s c u

/-- Claim C8: `get` and `get_all` are pure reads: they return the looked
up value, leave the store state untouched, perform no disk access, and
report 0 / the empty map for absent keys without creating entries. -/
theorem get_getAll_pure_reads :
    ∀ (s : WarningStore) (c u : Int),
      s.getEff c u = (s.get c u, s, []) ∧
      s.get_allEff c = (s.get_all c, s, []) ∧
      (dictGet s.data c = none → s.get c u = 0 ∧ s.get_all c = []) ∧
      (∀ users, dictGet s.data c = some users → dictGet users u = none → s.get c u = 0) := by
  intro s c u
  refine ⟨rfl, rfl, ?_, ?_⟩
  · intro h
    simp [WarningStore.get, WarningStore.get_all, h, dictGet]
  · intro users h1 h2
    simp [WarningStore.get, h1, h2]

theorem get_getAll_pure_reads_witness :
    WarningStore.get (⟨[(5, [(7, 2)])]⟩ : WarningStore) 8 1 = 0 ∧
    WarningStore.get_all (⟨[(5, [(7, 2)])]⟩ : WarningStore) 8 = [] :=
  (get_getAll_pure_reads ⟨[(5, [(7, 2)])]⟩ 8 1).2.2.1 (by decide)

/-! ## Save/load round trip -/

/-- A dict representation is well formed when its keys are unique. -/
def NodupKeys {κ α : Type} (d : List (κ × α)) : Prop :=
  (d.map Prod.fst).Nodup

instance {κ α : Type} [DecidableEq κ] (d : List (κ × α)) : Decidable (NodupKeys d) := by
  unfold NodupKeys
  infer_instance

/-- The representation invariant of a `WarningStore`: chat keys are
unique and each per-chat user map has unique keys (Python dicts cannot
hold duplicate keys). -/
def StoreWF (s : WarningStore) : Prop :=
  NodupKeys s.data ∧ ∀ cu ∈ s.data, NodupKeys cu.2

instance (s : WarningStore) : Decidable (StoreWF s) := by
  unfold StoreWF
  infer_instance

/-- Setting a batch of user entries into a user map, in order. -/
def setUsers (m : List (Int × Int)) (us : List (Int × Int)) : List (Int × Int) :=
  us.foldl (fun m2 un => dictSet m2 un.1 un.2) m

/-- Looking up a user count through both levels of a raw chat map. -/
def lookup2 (d : List (Int × List (Int × Int))) (c u : Int) : Option Int :=
  dictGet ((dictGet d c).getD []) u

theorem innerFold_eq (c : Int) :
    ∀ (us : List (Int × Int)) (acc : List (Int × List (Int × Int))), us ≠ [] →
      us.foldl (fun a un => loadEntry a c un.1 un.2) acc =
        dictSet acc c (setUsers ((dictGet acc c).getD []) us) := by
  intro us
  induction us with
  | nil =>
    intro acc h
    exact absurd rfl h
  | cons un rest ih =>
    intro acc _
    by_cases hr : rest = []
    · subst hr
      simp [setUsers, loadEntry]
    · have h2 := ih (loadEntry acc c un.1 un.2) hr
      have hget : dictGet (loadEntry acc c un.1 un.2) c =
          some (dictSet ((dictGet acc c).getD []) un.1 un.2) := by
        simp [loadEntry, dictGet_set_self]
      rw [List.foldl_cons, h2, hget]
      simp only [Option.getD_some, loadEntry]
      rw [dictSet_set_self]
      rfl

theorem setUsers_lookup :
    ∀ (us : List (Int × Int)), NodupKeys us →
      ∀ (m : List (Int × Int)) (u : Int),
        dictGet (setUsers m us) u =
          match dictGet us u with
          | some n => some n
          | none => dictGet m u := by
  intro us
  induction us with
  | nil =>
    intro _ m u
    rfl
  | cons un rest ih =>
    intro hnd m u
    obtain ⟨u1, n1⟩ := un
    have hsplit : u1 ∉ rest.map Prod.fst ∧ NodupKeys rest := by
      simpa [NodupKeys, List.nodup_cons] using hnd
    have hstep : setUsers m ((u1, n1) :: rest) = setUsers (dictSet m u1 n1) rest := rfl
    rw [hstep, ih hsplit.2]
    by_cases hu : u1 = u
    · subst hu
      have hrest : dictGet rest u1 = none := dictGet_eq_none_of_not_mem _ _ hsplit.1
      simp [hrest, dictGet, dictGet_set_self]
    · cases hrest : dictGet rest u with
      | none => simp [hrest, dictGet, hu, dictGet_set_ne _ _ _ _ (Ne.symm hu)]
      | some n => simp [hrest, dictGet, hu]

theorem loadFold_lookup :
    ∀ (raw : SavedJson), NodupKeys raw → (∀ cu ∈ raw, NodupKeys cu.2) →
      ∀ acc : List (Int × List (Int × Int)),
        (∀ c ∈ raw.map Prod.fst, dictGet acc c = none) →
      ∀ c u : Int,
        lookup2
          (raw.foldl
            (fun a cu => cu.2.foldl (fun a2 un => loadEntry a2 cu.1 un.1 un.2) a) acc) c u =
          match dictGet raw c with
          | some us => dictGet us u
          | none => lookup2 acc c u := by
  intro raw
  induction raw with
  | nil =>
    intro _ _ acc _ c u
    rfl
  | cons cu rest ih =>
    obtain ⟨c1, us1⟩ := cu
    intro hnd hwf acc hdisj c u
    have hsplit : c1 ∉ rest.map Prod.fst ∧ NodupKeys rest := by
      simpa [NodupKeys, List.nodup_cons] using hnd
    have hwf1 : NodupKeys us1 := hwf _ (List.mem_cons_self _ _)
    have hwfrest : ∀ p ∈ rest, NodupKeys p.2 := fun p hp => hwf p (List.mem_cons_of_mem _ hp)
    have hacc1 : dictGet acc c1 = none := hdisj c1 (by simp)
    rw [List.foldl_cons]
    by_cases hus : us1 = []
    · subst hus
      have hstep :
          ([] : List (Int × Int)).foldl (fun a2 un => loadEntry a2 c1 un.1 un.2) acc = acc :=
        rfl
      rw [hstep, ih hsplit.2 hwfrest acc (fun c2 hc2 => hdisj c2 (by simp [hc2])) c u]
      by_cases hc : c1 = c
      · subst hc
        have hrest : dictGet rest c1 = none := dictGet_eq_none_of_not_mem _ _ hsplit.1
        simp [hrest, dictGet, lookup2, hacc1]
      · simp [dictGet, hc]
    · rw [innerFold_eq c1 us1 acc hus, hacc1]
      have hdisj2 : ∀ c2 ∈ rest.map Prod.fst,
          dictGet (dictSet acc c1 (setUsers (Option.getD none []) us1)) c2 = none := by
        intro c2 hc2
        have hne : c2 ≠ c1 := by
          intro he
          exact hsplit.1 (he ▸ hc2)
        rw [dictGet_set_ne _ _ _ _ hne]
        exact hdisj c2 (by simp [hc2])
      rw [ih hsplit.2 hwfrest _ hdisj2 c u]
      by_cases hc : c1 = c
      · subst hc
        have hrest : dictGet rest c1 = none := dictGet_eq_none_of_not_mem _ _ hsplit.1
        rw [hrest]
        have hlk : lookup2 (dictSet acc c1 (setUsers (Option.getD none []) us1)) c1 u =
            dictGet (setUsers [] us1) u := by
          simp [lookup2, dictGet_set_self]
        rw [hlk, setUsers_lookup us1 hwf1 [] u]
        cases hget : dictGet us1 u with
        | none => simp [dictGet, hget]
        | some n => simp [dictGet, hget]
      · have hgoal : dictGet ((c1, us1) :: rest) c = dictGet rest c := by
          simp [dictGet, hc]
        rw [hgoal]
        cases hget : dictGet rest c with
        | none =>
          have hne : c ≠ c1 := fun he => hc he.symm
          simp [lookup2, dictGet_set_ne _ _ _ _ hne]
        | some us => rfl

/-- `_save` writes the data verbatim (each chat map is copied by
`dict(users)`). -/
theorem save_eq_data (s : WarningStore) : s.save = s.data := by
  simp [WarningStore.save]

/-- Claim C3: saving a well-formed store and loading the file into a
fresh store preserves `get_all` for every chat id (as a map: equal
lookups on both levels), and the persisted structure carries exactly the
store's per-chat, per-user counts, so non-negative counts stay
non-negative. -/
theorem store_save_load_roundtrip :
    ∀ s : WarningStore, StoreWF s →
      (∀ c u : Int,
        dictGet ((WarningStore.ofFile (some s.save)).get_all c) u =
          dictGet (s.get_all c) u) ∧
      ((∀ cu ∈ s.data, ∀ un ∈ cu.2, 0 ≤ un.2) →
        ∀ cu ∈ s.save, ∀ un ∈ cu.2, 0 ≤ un.2) := by
  intro s hwf
  constructor
  · intro c u
    have h := loadFold_lookup s.data hwf.1 hwf.2 []
      (fun c2 _ => rfl) c u
    have hload : (WarningStore.ofFile (some s.save)).get_all c =
        (dictGet (loadRaw s.data) c).getD [] := by
      simp [WarningStore.ofFile, WarningStore.get_all, save_eq_data]
    rw [hload]
    have h2 : lookup2 (loadRaw s.data) c u =
        match dictGet s.data c with
        | some us => dictGet us u
        | none => lookup2 [] c u := by
      simpa [loadRaw] using h
    have h3 : dictGet ((dictGet (loadRaw s.data) c).getD []) u =
        lookup2 (loadRaw s.data) c u := rfl
    rw [h3, h2]
    cases hget : dictGet s.data c with
    | none => simp [WarningStore.get_all, hget, lookup2, dictGet]
    | some us => simp [WarningStore.get_all, hget]
  · intro h cu hcu un hun
    rw [save_eq_data] at hcu
    exact h cu hcu un hun

theorem store_save_load_roundtrip_witness :
    dictGet ((WarningStore.ofFile
        (some (⟨[(1, [(2, 3)]), (4, [])]⟩ : WarningStore).save)).get_all 1) 2 =
      dictGet ((⟨[(1, [(2, 3)]), (4, [])]⟩ : WarningStore).get_all 1) 2 :=
  (store_save_load_roundtrip ⟨[(1, [(2, 3)]), (4, [])]⟩ (by decide)).1 1 2

/-! ## Config lemmas and claims -/

theorem pyEnv_some_ne_empty (env : List (String × String)) (k tok : String)
    (h : pyEnv env k none = some tok) : tok ≠ "" := by
  unfold pyEnv at h
  cases hd : dictGet env k with
  | none =>
    rw [hd] at h
    cases h
  | some v =>
    rw [hd] at h
    by_cases hs : pyStrip v = ""
    · simp [hs] at h
    · simp [hs] at h
      subst h
      intro he
      subst he
      exact hs rfl

/-- Claim C7: `Settings.from_env` fails when `TELEGRAM_BOT_TOKEN` is
unset or blank and when `WARNINGS_LIMIT` does not parse as an integer;
otherwise the defaults are limit 3, path `./warnings.json`, and
admin-only links on. -/
theorem settings_from_env_validation :
    (∀ env : List (String × String), dictGet env "TELEGRAM_BOT_TOKEN" = none →
      Settings.from_env env =
        .error "Set TELEGRAM_BOT_TOKEN in your environment (use .env.example as a template).") ∧
    (∀ (env : List (String × String)) (v : String),
      dictGet env "TELEGRAM_BOT_TOKEN" = some v → pyStrip v = "" →
      Settings.from_env env =
        .error "Set TELEGRAM_BOT_TOKEN in your environment (use .env.example as a template).") ∧
    (∀ (env : List (String × String)) (tok s : String),
      pyEnv env "TELEGRAM_BOT_TOKEN" none = some tok →
      pyEnv env "WARNINGS_LIMIT" (some "3") = some s →
      pyParseInt s = none →
      Settings.from_env env = .error "WARNINGS_LIMIT must be an integer") ∧
    (∀ (env : List (String × String)) (tok : String),
      pyEnv env "TELEGRAM_BOT_TOKEN" none = some tok →
      dictGet env "WARNINGS_LIMIT" = none →
      dictGet env "WARNINGS_STORAGE" = none →
      dictGet env "ADMIN_ONLY_LINKS" = none →
      Settings.from_env env = .ok ⟨tok, 3, "./warnings.json", true⟩) := by
  refine ⟨?_, ?_, ?_, ?_⟩
  · intro env h
    simp [Settings.from_env, pyEnv, h]
  · intro env v h1 h2
    simp [Settings.from_env, pyEnv, h1, h2]
  · intro env tok s h1 h2 h3
    have hne := pyEnv_some_ne_empty env _ tok h1
    simp [Settings.from_env, h1, hne, h2, h3]
  · intro env tok h1 h2 h3 h4
    have hne := pyEnv_some_ne_empty env _ tok h1
    have hp3 : pyParseInt "3" = some 3 := by decide
    have e2 : pyEnv env "WARNINGS_LIMIT" (some "3") = some "3" := by simp [pyEnv, h2]
    have e3 : pyEnv env "WARNINGS_STORAGE" (some "./warnings.json") =
        some "./warnings.json" := by simp [pyEnv, h3]
    have e4 : pyEnv env "ADMIN_ONLY_LINKS" (some "true") = some "true" := by
      simp [pyEnv, h4]
    simp [Settings.from_env, h1, hne, e2, e3, e4, hp3]
    decide

theorem settings_from_env_validation_witness :
    Settings.from_env [("TELEGRAM_BOT_TOKEN", "abc")] =
      .ok ⟨"abc", 3, "./warnings.json", true⟩ :=
  settings_from_env_validation.2.2.2 [("TELEGRAM_BOT_TOKEN", "abc")] "abc"
    (by decide) rfl rfl rfl

/-- Claim C9: an integer `WARNINGS_LIMIT` below 1 is clamped to 1 rather
than rejected, and a variable set to an empty or whitespace-only string
is treated as unset, so its default applies. -/
theorem warnings_limit_clamped_and_blank_env_default :
    (∀ (env : List (String × String)) (tok s : String) (n : Int),
      pyEnv env "TELEGRAM_BOT_TOKEN" none = some tok →
      pyEnv env "WARNINGS_LIMIT" (some "3") = some s →
      pyParseInt s = some n → n < 1 →
      ∃ st : Settings, Settings.from_env env = .ok st ∧ st.warnings_limit = 1) ∧
    (∀ (env : List (String × String)) (k v : String) (d : Option String),
      dictGet env k = some v → pyStrip v = "" → pyEnv env k d = d) ∧
    (∀ (env : List (String × String)) (k : String) (d : Option String),
      dictGet env k = none → pyEnv env k d = d) := by
  refine ⟨?_, ?_, ?_⟩
  · intro env tok s n h1 h2 h3 h4
    have hne := pyEnv_some_ne_empty env _ tok h1
    refine ⟨⟨tok, max 1 n,
      (pyEnv env "WARNINGS_STORAGE" (some "./warnings.json")).getD "./warnings.json",
      decide (pyLower ((pyEnv env "ADMIN_ONLY_LINKS" (some "true")).getD "true") ∈
        (["1", "true", "yes"] : List String))⟩, ?_, ?_⟩
    · simp [Settings.from_env, h1, hne, h2, h3]
    · exact max_eq_left (le_of_lt h4)
  · intro env k v d h1 h2
    simp [pyEnv, h1, h2]
  · intro env k d h
    simp [pyEnv, h]

theorem warnings_limit_clamped_and_blank_env_default_witness :
    (∃ st : Settings,
      Settings.from_env [("TELEGRAM_BOT_TOKEN", "t"), ("WARNINGS_LIMIT", "-2")] = .ok st ∧
        st.warnings_limit = 1) ∧
    pyEnv [("WARNINGS_LIMIT", "  ")] "WARNINGS_LIMIT" (some "3") = some "3" := by
  constructor
  · exact warnings_limit_clamped_and_blank_env_default.1
      [("TELEGRAM_BOT_TOKEN", "t"), ("WARNINGS_LIMIT", "-2")] "t" "-2" (-2)
      (by decide) (by decide) (by decide) (by decide)
  · exact warnings_limit_clamped_and_blank_env_default.2.1
      [("WARNINGS_LIMIT", "  ")] "WARNINGS_LIMIT" "  " (some "3") (by decide) (by decide)

/-! ## Mute duration (claim C5) -/

/-- Claim C5: the mute duration argument is optional, defaulting to 10
minutes; a parsed integer is clamped to a minimum of 1; a malformed
argument silently falls back to 10; and under the reply/admin gates the
`/mute` command restricts the target until
`message.date + resolveMinutes * 60` seconds. -/
theorem mute_duration_parsing :
    (resolveMinutes none [] = 10) ∧
    (∀ (a : String) (rest : List String) (n : Int), pyParseInt a = some n →
      resolveMinutes none (a :: rest) = max 1 n ∧
      1 ≤ resolveMinutes none (a :: rest)) ∧
    (∀ (a : String) (rest : List String), pyParseInt a = none →
      resolveMinutes none (a :: rest) = 10) ∧
    (∀ (ctx : Ctx) (u : TgUpdate) (msg : Message) (rm : RMessage) (target actor : PyUser),
      u.message = some msg → msg.replyToMessage = some rm → rm.fromUser = some target →
      u.effectiveUser = some actor → actor.id ∈ ctx.fetchAdmins u.effectiveChat →
      mute ctx u = .ok (ctx.store,
        [Effect.getChatAdministrators u.effectiveChat,
         Effect.restrictChatMember u.effectiveChat target.id permsMuted
           (some (msg.date + resolveMinutes none ctx.args * 60)),
         Effect.replyHtml (mentionHtml target ++ " برای " ++
           toString (resolveMinutes none ctx.args) ++ " دقیقه به سکوت رفت.")])) := by
  refine ⟨rfl, ?_, ?_, ?_⟩
  · intro a rest n hp
    have hmax : (1 : Int) ≤ max 1 n := le_max_left 1 n
    have hzero : ¬(max 1 n = 0) := by omega
    constructor
    · simp [resolveMinutes, hp, hzero]
    · simp only [resolveMinutes, hp]
      simp [hzero]
  · intro a rest hp
    simp [resolveMinutes, hp]
  · intro ctx u msg rm target actor h1 h2 h3 h4 h5
    simp [mute, mute_user, h1, h2, h3, h4, tg_is_admin, h5, Except.map]

theorem mute_duration_parsing_witness :
    resolveMinutes none ["5"] = max 1 5 ∧
    resolveMinutes none ["abc"] = 10 ∧
    resolveMinutes none ["0"] = max 1 0 := by
  refine ⟨?_, ?_, ?_⟩
  · exact (mute_duration_parsing.2.1 "5" [] 5 (by decide)).1
  · exact mute_duration_parsing.2.2.1 "abc" [] (by decide)
  · exact (mute_duration_parsing.2.1 "0" [] 0 (by decide)).1

/-! ## Warn escalation (claim C2) -/

/-- Whether a handler result carries a given effect. -/
def resultHasEffect (r : HandlerResult) (e : Effect) : Bool :=
  match r with
  | .ok p => p.2.contains e
  | .error _ => false

/-- Scenario inputs for `WARNINGS_LIMIT = 3`: admin user 1 warns target
user 2 in chat -100 by replying to the target's message. -/
def scnAdmin : PyUser := ⟨1, "admin"⟩

def scnTarget : PyUser := ⟨2, "target"⟩

def scnMsg : Message := ⟨1000, some scnAdmin, some ⟨some scnTarget, 77⟩, []⟩

def scnUpd : TgUpdate := ⟨some scnMsg, -100, some scnAdmin⟩

def scnCtx (st : WarningStore) : Ctx :=
  ⟨⟨"token", 3, "./warnings.json", true⟩, st, [], fun _ => [1], []⟩

/-- The store after one `/warn` of the scenario. -/
def scnStep (st : WarningStore) : WarningStore :=
  match warn (scnCtx st) scnUpd with
  | .ok p => p.1
  | .error _ => st

/-- Claim C2: when the count returned by `increment` reaches the
configured limit, `warn` mutes the target for exactly 60 minutes and
then resets the counter to 0; with `WARNINGS_LIMIT = 3`, three
successive warns yield counts 1, 2, and on the third an auto-mute with
the stored count back at 0. -/
theorem warn_escalation_mutes_and_resets :
    (∀ (ctx : Ctx) (u : TgUpdate) (msg : Message) (rm : RMessage) (target actor : PyUser),
      u.message = some msg →
      msg.replyToMessage = some rm →
      rm.fromUser = some target →
      u.effectiveUser = some actor →
      actor.id ∈ ctx.fetchAdmins u.effectiveChat →
      ctx.store.get u.effectiveChat target.id + 1 ≥ ctx.settings.warnings_limit →
      ∃ (store2 : WarningStore) (effs : List Effect),
        warn ctx u = .ok (store2, effs) ∧
        Effect.restrictChatMember u.effectiveChat target.id permsMuted
          (some (msg.date + 60 * 60)) ∈ effs ∧
        store2.get u.effectiveChat target.id = 0) ∧
    ((scnStep WarningStore.empty).get (-100) 2 = 1 ∧
     (scnStep (scnStep WarningStore.empty)).get (-100) 2 = 2 ∧
     resultHasEffect (warn (scnCtx (scnStep (scnStep WarningStore.empty))) scnUpd)
       (Effect.restrictChatMember (-100) 2 permsMuted (some 4600)) = true ∧
     (scnStep (scnStep (scnStep WarningStore.empty))).get (-100) 2 = 0) := by
  constructor
  · intro ctx u msg rm target actor h1 h2 h3 h4 h5 h6
    have hcount : (ctx.store.increment u.effectiveChat target.id).1 =
        ctx.store.get u.effectiveChat target.id + 1 := rfl
    refine ⟨((ctx.store.increment u.effectiveChat target.id).2).reset
        u.effectiveChat target.id,
      [Effect.getChatAdministrators u.effectiveChat,
       Effect.replyHtml ("هشدار #" ++ toString (ctx.store.get u.effectiveChat target.id + 1) ++
         " برای " ++ mentionHtml target ++ " ثبت شد."),
       Effect.getChatAdministrators u.effectiveChat,
       Effect.restrictChatMember u.effectiveChat target.id permsMuted
         (some (msg.date + 60 * 60)),
       Effect.replyHtml (mentionHtml target ++ " برای " ++ toString (60 : Int) ++
         " دقیقه به سکوت رفت."),
       Effect.replyHtml (mentionHtml target ++
         " به دلیل هشدارهای متوالی به مدت یک ساعت میوت شد.")], ?_, ?_, ?_⟩
    · have h5d : tg_is_admin u.effectiveUser (ctx.fetchAdmins u.effectiveChat) = true := by
        simp [tg_is_admin, h4, h5]
      simp only [warn, mute_user, h1, h2, h3, h5d, Bool.not_true, Bool.false_eq_true,
        if_false, hcount]
      rw [if_pos h6]
      simp [resolveMinutes]
    · simp
    · exact get_reset_self _ _ _
  · refine ⟨by decide, by decide, by decide, by decide⟩

theorem warn_escalation_mutes_and_resets_witness :
    ∃ (store2 : WarningStore) (effs : List Effect),
      warn (scnCtx (scnStep (scnStep WarningStore.empty))) scnUpd = .ok (store2, effs) ∧
      Effect.restrictChatMember (-100) 2 permsMuted (some (1000 + 60 * 60)) ∈ effs ∧
      store2.get (-100) 2 = 0 :=
  warn_escalation_mutes_and_resets.1 (scnCtx (scnStep (scnStep WarningStore.empty))) scnUpd
    scnMsg ⟨some scnTarget, 77⟩ scnTarget scnAdmin rfl rfl rfl rfl (by decide) (by decide)

/-! ## Non-admin rejection (claim C4) and missing reply (claim C6) -/

/-- Claim C4: with the reply/target present, a non-admin invoker of any
admin-gated command gets exactly the rejection reply after the fresh
administrator fetch, with no moderation API call and an unchanged store. -/
theorem nonadmin_rejected_no_action :
    ∀ (ctx : Ctx) (u : TgUpdate) (msg : Message) (rm : RMessage) (target : PyUser),
      u.message = some msg →
      msg.replyToMessage = some rm →
      rm.fromUser = some target →
      tg_is_admin u.effectiveUser (ctx.fetchAdmins u.effectiveChat) = false →
      warn ctx u = .ok (ctx.store, [Effect.getChatAdministrators u.effectiveChat,
        Effect.replyText "فقط ادمین‌ها می‌توانند هشدار دهند."]) ∧
      mute ctx u = .ok (ctx.store, [Effect.getChatAdministrators u.effectiveChat,
        Effect.replyText "فقط ادمین‌ها می‌توانند سکوت کنند."]) ∧
      unmute ctx u = .ok (ctx.store, [Effect.getChatAdministrators u.effectiveChat,
        Effect.replyText "فقط ادمین‌ها می‌توانند کاربر را آزاد کنند."]) ∧
      ban ctx u = .ok (ctx.store, [Effect.getChatAdministrators u.effectiveChat,
        Effect.replyText "فقط ادمین‌ها می‌توانند کاربر را بن کنند."]) ∧
      lock_chat ctx u = .ok (ctx.store, [Effect.getChatAdministrators u.effectiveChat,
        Effect.replyText "فقط ادمین‌ها می‌توانند گروه را قفل کنند."]) ∧
      unlock_chat ctx u = .ok (ctx.store, [Effect.getChatAdministrators u.effectiveChat,
        Effect.replyText "فقط ادمین‌ها می‌توانند گروه را آزاد کنند."]) ∧
      reset_warns ctx u = .ok (ctx.store, [Effect.getChatAdministrators u.effectiveChat,
        Effect.replyText "فقط ادمین‌ها می‌توانند هشدارها را پاک کنند."]) ∧
      pin ctx u = .ok (ctx.store, [Effect.getChatAdministrators u.effectiveChat,
        Effect.replyText "فقط ادمین‌ها می‌توانند پیام را پین کنند."]) ∧
      (∀ t : String, (Effect.replyText t).isModerationCall = false) ∧
      (Effect.getChatAdministrators u.effectiveChat).isModerationCall = false := by
  intro ctx u msg rm target h1 h2 h3 h4
  refine ⟨?_, ?_, ?_, ?_, ?_, ?_, ?_, ?_, fun t => rfl, rfl⟩ <;>
    simp [warn, mute, mute_user, unmute, ban, lock_chat, unlock_chat, reset_warns, pin,
      h1, h2, h3, h4, Except.map]

/-- A non-admin user of the witness scenarios. -/
def wUser : PyUser := ⟨9, "user"⟩

def wTarget : PyUser := ⟨2, "peer"⟩

def wMsg : Message := ⟨50, some wUser, some ⟨some wTarget, 5⟩, []⟩

def wUpd : TgUpdate := ⟨some wMsg, 7, some wUser⟩

/-- A context whose administrator fetch returns no admins. -/
def wCtx : Ctx := ⟨⟨"tk", 3, "./warnings.json", true⟩, ⟨[]⟩, [], fun _ => [], []⟩

theorem nonadmin_rejected_no_action_witness :
    warn wCtx wUpd = .ok (wCtx.store, [Effect.getChatAdministrators 7,
      Effect.replyText "فقط ادمین‌ها می‌توانند هشدار دهند."]) ∧
    ban wCtx wUpd = .ok (wCtx.store, [Effect.getChatAdministrators 7,
      Effect.replyText "فقط ادمین‌ها می‌توانند کاربر را بن کنند."]) := by
  have h := nonadmin_rejected_no_action wCtx wUpd wMsg ⟨some wTarget, 5⟩ wTarget
    rfl rfl rfl (by decide)
  exact ⟨h.1, h.2.2.2.1⟩

/-- Claim C6: invoking a reply-targeted command on a message that is not
a reply yields exactly the guidance reply, an unchanged store, no API
call, and no exception (the result is `.ok`). -/
theorem missing_reply_guidance_no_change :
    ∀ (ctx : Ctx) (u : TgUpdate) (msg : Message),
      u.message = some msg →
      msg.replyToMessage = none →
      warn ctx u = .ok (ctx.store,
        [Effect.replyText "برای هشدار، پیام کاربر را ریپلای کنید."]) ∧
      warn_info ctx u = .ok (ctx.store,
        [Effect.replyText "برای مشاهده تعداد هشدار، پیام کاربر را ریپلای کنید."]) ∧
      mute ctx u = .ok (ctx.store,
        [Effect.replyText "برای سکوت، پیام کاربر را ریپلای کنید."]) ∧
      unmute ctx u = .ok (ctx.store,
        [Effect.replyText "برای آزاد کردن کاربر، پیام او را ریپلای کنید."]) ∧
      ban ctx u = .ok (ctx.store,
        [Effect.replyText "برای بن کردن، پیام کاربر را ریپلای کنید."]) ∧
      reset_warns ctx u = .ok (ctx.store,
        [Effect.replyText "برای پاک کردن هشدار، پیام کاربر را ریپلای کنید."]) ∧
      pin ctx u = .ok (ctx.store,
        [Effect.replyText "برای پین کردن، پیام مد نظر را ریپلای کنید."]) := by
  intro ctx u msg h1 h2
  refine ⟨?_, ?_, ?_, ?_, ?_, ?_, ?_⟩ <;>
    simp [warn, warn_info, mute, mute_user, unmute, ban, reset_warns, pin,
      h1, h2, Except.map]

def wMsgNR : Message := ⟨50, some wUser, none, []⟩

def wUpdNR : TgUpdate := ⟨some wMsgNR, 7, some wUser⟩

theorem missing_reply_guidance_no_change_witness :
    warn wCtx wUpdNR = .ok (wCtx.store,
      [Effect.replyText "برای هشدار، پیام کاربر را ریپلای کنید."]) ∧
    pin wCtx wUpdNR = .ok (wCtx.store,
      [Effect.replyText "برای پین کردن، پیام مد نظر را ریپلای کنید."]) := by
  have h := missing_reply_guidance_no_change wCtx wUpdNR wMsgNR rfl rfl
  exact ⟨h.1, h.2.2.2.2.2.2⟩

/-! ## Admin cache is never read by handlers (claim C10) -/

/-- Claim C10: every handler's result is computed solely from the
settings, store, freshly fetched administrator list, and arguments; two
runs that differ only in the contents of the `admin_ids` cache written
by `track_admin` behave identically. -/
theorem handlers_independent_of_admin_cache :
    ∀ (settings : Settings) (store : WarningStore) (cache1 cache2 : List (Int × List Int))
      (fetch : Int → List Int) (args : List String) (u : TgUpdate),
      warn ⟨settings, store, cache1, fetch, args⟩ u =
        warn ⟨settings, store, cache2, fetch, args⟩ u ∧
      warn_info ⟨settings, store, cache1, fetch, args⟩ u =
        warn_info ⟨settings, store, cache2, fetch, args⟩ u ∧
      mute ⟨settings, store, cache1, fetch, args⟩ u =
        mute ⟨settings, store, cache2, fetch, args⟩ u ∧
      unmute ⟨settings, store, cache1, fetch, args⟩ u =
        unmute ⟨settings, store, cache2, fetch, args⟩ u ∧
      ban ⟨settings, store, cache1, fetch, args⟩ u =
        ban ⟨settings, store, cache2, fetch, args⟩ u ∧
      lock_chat ⟨settings, store, cache1, fetch, args⟩ u =
        lock_chat ⟨settings, store, cache2, fetch, args⟩ u ∧
      unlock_chat ⟨settings, store, cache1, fetch, args⟩ u =
        unlock_chat ⟨settings, store, cache2, fetch, args⟩ u ∧
      stats ⟨settings, store, cache1, fetch, args⟩ u =
        stats ⟨settings, store, cache2, fetch, args⟩ u ∧
      reset_warns ⟨settings, store, cache1, fetch, args⟩ u =
        reset_warns ⟨settings, store, cache2, fetch, args⟩ u ∧
      pin ⟨settings, store, cache1, fetch, args⟩ u =
        pin ⟨settings, store, cache2, fetch, args⟩ u ∧
      block_links ⟨settings, store, cache1, fetch, args⟩ u =
        block_links ⟨settings, store, cache2, fetch, args⟩ u ∧
      start ⟨settings, store, cache1, fetch, args⟩ u =
        start ⟨settings, store, cache2, fetch, args⟩ u ∧
      help_command ⟨settings, store, cache1, fetch, args⟩ u =
        help_command ⟨settings, store, cache2, fetch, args⟩ u ∧
      rules ⟨settings, store, cache1, fetch, args⟩ u =
        rules ⟨settings, store, cache2, fetch, args⟩ u ∧
      welcome ⟨settings, store, cache1, fetch, args⟩ u =
        welcome ⟨settings, store, cache2, fetch, args⟩ u := by
  intro settings store cache1 cache2 fetch args u
  exact ⟨rfl, rfl, rfl, rfl, rfl, rfl, rfl, rfl, rfl, rfl, rfl, rfl, rfl, rfl, rfl⟩
